import Mathlib

/-!
Verification development for the id-verification-system service.

The repository has three effective layers, embedded here faithfully:

* `src/config/env.ts` — the `config` object built from process environment
  variables (embedded as `Env` → `configInnovatrics`).
* `src/services/innovatricsClient.ts` — the `InnovatricsService` provider
  adapter: an axios client with fixed default headers, and one method per
  provider capability, each wrapping failures into a message string
  `Failed to X: $\x7bdataMessage || message\x7d` (embedded as `clientDefaultHeaders`,
  `adapterRequest` for the outbound requests, and the `Svc` functions for
  the outcome behaviour over an abstract `Provider` oracle).
* `src/controllers/verificationController.ts` — the Express controllers
  (embedded as pure functions from a `Provider` oracle and the request
  fields to an `ApiEnvelope` response paired with the list of provider
  calls actually made, in order).

JavaScript conventions the embedding keeps: request body fields are
`Option String` (absent = `none`); JS truthiness of a string field is
`truthy` (absent and the empty string are both falsy); `a || b` on a
possibly-absent string is `jsOr`; interpolating a missing object property
into a template literal prints the string `undefined` (`jsInterp`).
-/

namespace IdVerif

/-- JSON-like values used for controller response payloads. -/
inductive Json where
  | null : Json
  | bool (b : Bool) : Json
  | num (q : Rat) : Json
  | str (s : String) : Json
  | arr (xs : List Json) : Json
  | obj (fields : List (String × Json)) : Json

/-- Field lookup in a JSON object field list (first match wins). -/
def lookupField (fields : List (String × Json)) (key : String) : Option Json :=
  match fields with
  | [] => none
  | (k, v) :: rest => if k = key then some v else lookupField rest key

/-- JS truthiness of a possibly-absent string: `undefined` and the empty
string are falsy, every other string truthy. -/
def truthy : Option String → Bool
  | none => false
  | some s => s ≠ ""

/-- JS `a || b` where `a` is a possibly-absent string: yields `b` when `a`
is absent or empty. -/
def jsOr (a : Option String) (b : String) : String :=
  match a with
  | none => b
  | some s => if s = "" then b else s

/-- JS template-literal interpolation of a possibly-absent string property:
a missing property prints as the literal string `undefined`. -/
def jsInterp : Option String → String
  | none => "undefined"
  | some s => s

/-- Process environment variables read by `src/config/env.ts`. -/
structure Env where
  port : Option String
  innovatricsBaseUrl : Option String
  innovatricsApiKey : Option String
  innovatricsApiSecret : Option String

/-- The `config.innovatrics` object literal of `src/config/env.ts`: exactly
the three properties `baseUrl`, `apiKey`, `apiSecret`, each defaulted with
`||`. -/
structure InnovatricsConfig where
  baseUrl : String
  apiKey : String
  apiSecret : String

/-- Construction of `config.innovatrics` from the environment, as in
`src/config/env.ts`. -/
def configInnovatrics (e : Env) : InnovatricsConfig :=
  { baseUrl := jsOr e.innovatricsBaseUrl "https://dot.innovatrics.com/identity"
    apiKey := jsOr e.innovatricsApiKey "your_innovatrics_api_key"
    apiSecret := jsOr e.innovatricsApiSecret "your_innovatrics_api_secret" }

/-- Dynamic JS property access on the `config.innovatrics` object: the
object literal defines exactly `baseUrl`, `apiKey` and `apiSecret`; reading
any other property (such as `bearerToken` or `host`) yields `undefined`. -/
def InnovatricsConfig.field (c : InnovatricsConfig) : String → Option String
  | "baseUrl" => some c.baseUrl
  | "apiKey" => some c.apiKey
  | "apiSecret" => some c.apiSecret
  | _ => none

/-- Default headers installed on the axios client by the
`InnovatricsService` constructor: `Authorization` is built by interpolating
`config.innovatrics.bearerToken`, `Host` by interpolating
`config.innovatrics.host`. -/
def clientDefaultHeaders (c : InnovatricsConfig) : List (String × String) :=
  [ ("Authorization", "Bearer " ++ jsInterp (c.field "bearerToken"))
  , ("Content-Type", "application/json")
  , ("Host", jsInterp (c.field "host")) ]

/-- An outbound HTTP request of the provider adapter. -/
structure HttpReq where
  method : String
  url : String
  body : Json
  headers : List (String × String)

/-- One provider-adapter invocation, carrying exactly the data the
corresponding `InnovatricsService` method receives. `createCustomer`
carries nothing because the source method signature declares no
parameters, so a caller-supplied argument object is discarded. -/
inductive ProviderCall where
  | createCustomer : ProviderCall
  | detectFace (image : String) : ProviderCall
  | checkFaceMask (faceId : String) : ProviderCall
  | compareFaces (probeFaceId : String)
      (referenceFace referenceFaceTemplate : Option String) : ProviderCall
  | createLivenessChallenge (customerId : String)
      (challengeType : Option String) : ProviderCall
  | submitLivenessData (customerId : String) (image : String)
      (challengeId : Option String) : ProviderCall
  | uploadSelfie (customerId : String) (image : String) : ProviderCall
  | getSelfie (customerId : String) : ProviderCall
  | deleteSelfie (customerId : String) : ProviderCall
  | deleteLivenessData (customerId : String) : ProviderCall
  | verifyDocumentCreate (frontImage : String) (backImage : Option String)
      (documentType : Option String) : ProviderCall
  | verifyDocumentVerify (documentId : String) : ProviderCall
deriving DecidableEq, Repr

/-- JSON body field for a possibly-absent string (JSON serialization drops
absent properties). -/
def optField (key : String) (v : Option String) : List (String × Json) :=
  match v with
  | none => []
  | some s => [(key, Json.str s)]

/-- The HTTP request each `InnovatricsService` method sends, transcribed
from the method bodies of `src/services/innovatricsClient.ts`: method,
URL (axios prefixes the configured `baseURL`), JSON body, and the default
headers from the constructor. -/
def adapterRequest (c : InnovatricsConfig) : ProviderCall → HttpReq
  | .createCustomer =>
      ⟨"POST", c.baseUrl ++ "/customers", Json.null, clientDefaultHeaders c⟩
  | .detectFace image =>
      ⟨"POST", c.baseUrl ++ "/faces", Json.obj [("image", Json.str image)],
        clientDefaultHeaders c⟩
  | .checkFaceMask faceId =>
      ⟨"GET", c.baseUrl ++ "/faces/" ++ faceId ++ "/face-mask", Json.null,
        clientDefaultHeaders c⟩
  | .compareFaces probeFaceId referenceFace referenceFaceTemplate =>
      ⟨"POST", c.baseUrl ++ "/faces/" ++ probeFaceId ++ "/similarity",
        Json.obj (optField "referenceFace" referenceFace ++
          optField "referenceFaceTemplate" referenceFaceTemplate),
        clientDefaultHeaders c⟩
  | .createLivenessChallenge customerId challengeType =>
      ⟨"PUT", c.baseUrl ++ "/customers/" ++ customerId ++ "/liveness/records/challenge",
        Json.obj (optField "challengeType" challengeType),
        clientDefaultHeaders c⟩
  | .submitLivenessData customerId image challengeId =>
      ⟨"PUT", c.baseUrl ++ "/customers/" ++ customerId ++ "/liveness",
        Json.obj ([("image", Json.str image)] ++ optField "challengeId" challengeId ++
          [("options", Json.obj [])]),
        clientDefaultHeaders c⟩
  | .uploadSelfie customerId image =>
      ⟨"PUT", c.baseUrl ++ "/customers/" ++ customerId ++ "/selfie",
        Json.obj [("image", Json.str image)], clientDefaultHeaders c⟩
  | .getSelfie customerId =>
      ⟨"GET", c.baseUrl ++ "/api/v1/customers/" ++ customerId ++ "/selfie", Json.null,
        clientDefaultHeaders c⟩
  | .deleteSelfie customerId =>
      ⟨"DELETE", c.baseUrl ++ "/api/v1/customers/" ++ customerId ++ "/selfie", Json.null,
        clientDefaultHeaders c⟩
  | .deleteLivenessData customerId =>
      ⟨"DELETE", c.baseUrl ++ "/api/v1/customers/" ++ customerId ++ "/liveness", Json.null,
        clientDefaultHeaders c⟩
  | .verifyDocumentCreate frontImage backImage documentType =>
      ⟨"POST", c.baseUrl ++ "/documents",
        Json.obj ([("frontImage", Json.str frontImage)] ++
          optField "backImage" backImage ++
          [("documentType", Json.str (jsOr documentType "id_card"))]),
        clientDefaultHeaders c⟩
  | .verifyDocumentVerify documentId =>
      ⟨"POST", c.baseUrl ++ "/documents/" ++ documentId ++ "/verify", Json.null,
        clientDefaultHeaders c⟩

/-- Typed provider response for `createCustomer`
(`CreateCustomerResponse` in the source). -/
structure CreateCustomerResponse where
  id : String
  selfLink : String
deriving DecidableEq, Repr

/-- Bounding box of a detected face. -/
structure BoundingBox where
  x : Rat
  y : Rat
  width : Rat
  height : Rat
deriving DecidableEq, Repr

/-- Detection block of `CreateFaceResponse`. -/
structure FaceDetection where
  score : Rat
  boundingBox : BoundingBox
deriving DecidableEq, Repr

/-- Typed provider response for `detectFace`
(`CreateFaceResponse` in the source). -/
structure CreateFaceResponse where
  id : String
  detection : FaceDetection
  selfLink : String
  templateLink : String
deriving DecidableEq, Repr

/-- Typed provider response for `compareFaces`
(`FaceSimilarityResponse` in the source). -/
structure FaceSimilarityResponse where
  score : Rat
deriving DecidableEq, Repr

/-- Typed provider response for `checkFaceMask`. -/
structure MaskResponse where
  score : Rat
deriving DecidableEq, Repr

/-- Typed provider response for `createLivenessChallenge`
(`LivenessChallengeResponse` in the source). -/
structure LivenessChallengeResponse where
  challengeId : String
  challengeType : String
  instructions : String
deriving DecidableEq, Repr

/-- Typed provider response for `submitLivenessData`. -/
structure LivenessSubmitResponse where
  confidence : Rat
  status : String
  isDeepfake : Option Bool
  deepfakeConfidence : Option Rat
deriving DecidableEq, Repr

/-- Typed provider response for the verification step of `verifyDocument`
(`DocumentVerificationResponse` in the source). -/
structure DocumentVerificationResponse where
  documentType : String
  issuingCountry : String
  documentNumber : String
  expirationDate : String
  personalNumber : Option String
  verificationStatus : String
  confidence : Rat
deriving DecidableEq, Repr

/-- An axios-style provider failure: `dataMessage` embeds
`error.response?.data?.message` (the structured message of the provider
error payload, absent on transport failures), `message` embeds
`error.message`. -/
structure ProvErr where
  dataMessage : Option String
  message : String
deriving DecidableEq, Repr

/-- Behaviour of the external provider for one run: for every adapter
operation, either a typed response or an axios-style failure. The
controllers are proved correct for every such behaviour, which covers
reachable and unreachable providers alike. -/
structure Provider where
  createCustomerResp : Except ProvErr CreateCustomerResponse
  detectFaceResp : String → Except ProvErr CreateFaceResponse
  checkFaceMaskResp : String → Except ProvErr MaskResponse
  compareFacesResp : String → Option String → Option String →
    Except ProvErr FaceSimilarityResponse
  createLivenessChallengeResp : String → Option String →
    Except ProvErr LivenessChallengeResponse
  submitLivenessDataResp : String → String → Option String →
    Except ProvErr LivenessSubmitResponse
  uploadSelfieResp : String → String → Except ProvErr String
  getSelfieResp : String → Except ProvErr String
  deleteSelfieResp : String → Except ProvErr Unit
  deleteLivenessDataResp : String → Except ProvErr Unit
  verifyDocumentCreateResp : String → Option String → Option String →
    Except ProvErr String
  verifyDocumentVerifyResp : String → Except ProvErr DocumentVerificationResponse

/-- Error wrapping performed by every `InnovatricsService` method:
`Failed to X: $\x7berror.response?.data?.message || error.message\x7d`. -/
def svcWrap (prefixMsg : String) (e : ProvErr) : String :=
  prefixMsg ++ ": " ++ jsOr e.dataMessage e.message

namespace Svc

/-- Outcome of `InnovatricsService.createCustomer`: the source method
declares no parameters, so the argument object a caller passes is
discarded and never reaches the request. -/
def createCustomer (p : Provider) : Except String CreateCustomerResponse :=
  match p.createCustomerResp with
  | .ok r => .ok r
  | .error e => .error (svcWrap "Failed to create customer" e)

/-- Outcome of `InnovatricsService.detectFace`. -/
def detectFace (p : Provider) (image : String) :
    Except String CreateFaceResponse :=
  match p.detectFaceResp image with
  | .ok r => .ok r
  | .error e => .error (svcWrap "Failed to detect face" e)

/-- Outcome of `InnovatricsService.checkFaceMask`. -/
def checkFaceMask (p : Provider) (faceId : String) :
    Except String MaskResponse :=
  match p.checkFaceMaskResp faceId with
  | .ok r => .ok r
  | .error e => .error (svcWrap "Failed to check face mask" e)

/-- Outcome of `InnovatricsService.compareFaces`. -/
def compareFaces (p : Provider) (probeFaceId : String)
    (referenceFace referenceFaceTemplate : Option String) :
    Except String FaceSimilarityResponse :=
  match p.compareFacesResp probeFaceId referenceFace referenceFaceTemplate with
  | .ok r => .ok r
  | .error e => .error (svcWrap "Failed to compare faces" e)

/-- Outcome of `InnovatricsService.createLivenessChallenge`. -/
def createLivenessChallenge (p : Provider) (customerId : String)
    (challengeType : Option String) :
    Except String LivenessChallengeResponse :=
  match p.createLivenessChallengeResp customerId challengeType with
  | .ok r => .ok r
  | .error e => .error (svcWrap "Failed to create liveness challenge" e)

/-- Outcome of `InnovatricsService.submitLivenessData`. -/
def submitLivenessData (p : Provider) (customerId : String) (image : String)
    (challengeId : Option String) :
    Except String LivenessSubmitResponse :=
  match p.submitLivenessDataResp customerId image challengeId with
  | .ok r => .ok r
  | .error e => .error (svcWrap "Failed to submit liveness data" e)

/-- Outcome of `InnovatricsService.uploadSelfie` (the response id). -/
def uploadSelfie (p : Provider) (customerId : String) (image : String) :
    Except String String :=
  match p.uploadSelfieResp customerId image with
  | .ok r => .ok r
  | .error e => .error (svcWrap "Failed to upload selfie" e)

/-- Outcome of `InnovatricsService.getSelfie` (the selfie image). -/
def getSelfie (p : Provider) (customerId : String) : Except String String :=
  match p.getSelfieResp customerId with
  | .ok r => .ok r
  | .error e => .error (svcWrap "Failed to get selfie" e)

/-- Outcome of `InnovatricsService.deleteSelfie`. -/
def deleteSelfie (p : Provider) (customerId : String) : Except String Unit :=
  match p.deleteSelfieResp customerId with
  | .ok r => .ok r
  | .error e => .error (svcWrap "Failed to delete selfie" e)

/-- Outcome of `InnovatricsService.deleteLivenessData`. -/
def deleteLivenessData (p : Provider) (customerId : String) :
    Except String Unit :=
  match p.deleteLivenessDataResp customerId with
  | .ok r => .ok r
  | .error e => .error (svcWrap "Failed to delete liveness data" e)

/-- Outcome of the first provider call inside
`InnovatricsService.verifyDocument` (the document-record creation,
returning the new document id); both calls of that method share one try
block and the same wrapping prefix. -/
def verifyDocumentCreate (p : Provider) (frontImage : String)
    (backImage documentType : Option String) : Except String String :=
  match p.verifyDocumentCreateResp frontImage backImage documentType with
  | .ok r => .ok r
  | .error e => .error (svcWrap "Failed to verify document" e)

/-- Outcome of the second provider call inside
`InnovatricsService.verifyDocument` (the verification of the created
document record). -/
def verifyDocumentVerify (p : Provider) (documentId : String) :
    Except String DocumentVerificationResponse :=
  match p.verifyDocumentVerifyResp documentId with
  | .ok r => .ok r
  | .error e => .error (svcWrap "Failed to verify document" e)

end Svc

/-- HTTP response envelope produced through `ResponseHandler` and the
validation helper. Modelled from the spec: `src/utils/responseHandler.ts`
is referenced by the controllers but absent from the sources; the spec
(section 6) fixes the JSON envelope as
`\x7bsuccess: bool, data?: object, message?: string, error?: string\x7d`, and the
repository OpenAPI schemas additionally document the validation shape
`\x7bsuccess: false, message: Validation failed, errors: string list\x7d`. -/
structure ApiEnvelope where
  status : Nat
  success : Bool
  data : Option (List (String × Json))
  message : Option String
  error : Option String
  errors : Option (List String)

namespace ResponseHandler

/-- Modelled from the spec: `ResponseHandler.success(res, data, message)`
of the missing `src/utils/responseHandler.ts`, per the spec envelope
`\x7bsuccess: true, data, message\x7d` with HTTP status 200. -/
def success (data : List (String × Json)) (message : String) : ApiEnvelope :=
  { status := 200, success := true, data := some data,
    message := some message, error := none, errors := none }

/-- Modelled from the spec: `ResponseHandler.error(res, message, status,
error)` of the missing `src/utils/responseHandler.ts`, per the spec
envelope `\x7bsuccess: false, message, error\x7d`; the controllers pass the
wrapped service failure message as the `error` argument. -/
def error (message : String) (status : Nat) (errMsg : String) : ApiEnvelope :=
  { status := status, success := false, data := none,
    message := some message, error := some errMsg, errors := none }

/-- Modelled from the spec: `ResponseHandler.validationError(res, errors)`
of the missing `src/utils/responseHandler.ts`, per the repository OpenAPI
`ValidationErrorResponse` schema
`\x7bsuccess: false, message: Validation failed, errors\x7d` with HTTP 400. -/
def validationError (errs : List String) : ApiEnvelope :=
  { status := 400, success := false, data := none,
    message := some "Validation failed", error := none, errors := some errs }

end ResponseHandler

/-- JSON rendering of a `CreateFaceResponse`, as serialized into the
`faceResult` field of the face-detection success payload. -/
def CreateFaceResponse.toJson (r : CreateFaceResponse) : Json :=
  Json.obj
    [ ("id", Json.str r.id)
    , ("detection", Json.obj
        [ ("score", Json.num r.detection.score)
        , ("boundingBox", Json.obj
            [ ("x", Json.num r.detection.boundingBox.x)
            , ("y", Json.num r.detection.boundingBox.y)
            , ("width", Json.num r.detection.boundingBox.width)
            , ("height", Json.num r.detection.boundingBox.height) ]) ])
    , ("links", Json.obj
        [ ("self", Json.str r.selfLink)
        , ("template", Json.str r.templateLink) ]) ]

/-- JSON rendering of a `LivenessSubmitResponse`, as serialized into the
`livenessResult` field of the liveness-check success payload (absent
optional properties are dropped). -/
def LivenessSubmitResponse.toJson (r : LivenessSubmitResponse) : Json :=
  Json.obj
    ([ ("confidence", Json.num r.confidence)
     , ("status", Json.str r.status) ] ++
     (match r.isDeepfake with
      | none => []
      | some b => [("isDeepfake", Json.bool b)]) ++
     (match r.deepfakeConfidence with
      | none => []
      | some q => [("deepfakeConfidence", Json.num q)]))

/-- JSON rendering of a `LivenessChallengeResponse`, as serialized into
the `challenge` field of the challenge-creation success payload. -/
def LivenessChallengeResponse.toJson (r : LivenessChallengeResponse) : Json :=
  Json.obj
    [ ("challengeId", Json.str r.challengeId)
    , ("challengeType", Json.str r.challengeType)
    , ("instructions", Json.str r.instructions) ]

/-- JSON rendering of a `DocumentVerificationResponse`, as serialized into
the `documentResult` field of the document success payload (the absent
optional property is dropped). -/
def DocumentVerificationResponse.toJson (r : DocumentVerificationResponse) : Json :=
  Json.obj
    ([ ("documentType", Json.str r.documentType)
     , ("issuingCountry", Json.str r.issuingCountry)
     , ("documentNumber", Json.str r.documentNumber)
     , ("expirationDate", Json.str r.expirationDate) ] ++
     (match r.personalNumber with
      | none => []
      | some s => [("personalNumber", Json.str s)]) ++
     [ ("verificationStatus", Json.str r.verificationStatus)
     , ("confidence", Json.num r.confidence) ])

namespace VerificationController

/-- Embedding of `VerificationController.createCustomer`: validates that
`userId` is truthy, then calls the adapter `createCustomer` (whose source
signature takes no parameters, so the
`\x7bexternalId: userId, onboardingStatus: IN_PROGRESS\x7d` argument object
built at the call site is discarded) and echoes `userId` back in the local
response. `now` stands for `new Date()`. Returns the response envelope
paired with the provider calls made, in order. -/
def createCustomer (p : Provider) (now : String) (userId : Option String) :
    ApiEnvelope × List ProviderCall :=
  if truthy userId = false then
    (ResponseHandler.validationError ["userId is required"], [])
  else
    match Svc.createCustomer p with
    | .ok customer =>
        (ResponseHandler.success
          [ ("customerId", Json.str customer.id)
          , ("status", Json.str "created")
          , ("createdAt", Json.str now)
          , ("userId", Json.str (jsInterp userId)) ]
          "Customer created successfully",
         [ProviderCall.createCustomer])
    | .error msg =>
        (ResponseHandler.error "Failed to create customer" 500 msg,
         [ProviderCall.createCustomer])

/-- Shared tail of `performLivenessCheck`: the `submitLivenessData` call
with the resolved challenge id and the assembly of the response.
`callsBefore` are the provider calls already made in this invocation. -/
def livenessSubmitStep (p : Provider) (customerId img : String)
    (finalChallengeId : Option String) (callsBefore : List ProviderCall) :
    ApiEnvelope × List ProviderCall :=
  match Svc.submitLivenessData p customerId img finalChallengeId with
  | .ok r =>
      (ResponseHandler.success
        [ ("customerId", Json.str customerId)
        , ("livenessResult", r.toJson)
        , ("status", Json.str "liveness_checked") ]
        "Liveness check performed successfully",
       callsBefore ++ [ProviderCall.submitLivenessData customerId img finalChallengeId])
  | .error msg =>
      (ResponseHandler.error "Failed to perform liveness check" 500 msg,
       callsBefore ++ [ProviderCall.submitLivenessData customerId img finalChallengeId])

/-- Embedding of `VerificationController.performLivenessCheck`: requires a
truthy `image`; if `challengeId` is falsy, first creates a liveness
challenge with `challengeType || passive` and uses the challenge id the
provider returned; then submits the liveness data with the resolved
challenge id. -/
def performLivenessCheck (p : Provider) (customerId : String)
    (image challengeId challengeType : Option String) :
    ApiEnvelope × List ProviderCall :=
  match image with
  | none => (ResponseHandler.validationError ["image is required"], [])
  | some img =>
    if img = "" then (ResponseHandler.validationError ["image is required"], [])
    else if truthy challengeId then
      livenessSubmitStep p customerId img challengeId []
    else
      let ctype := jsOr challengeType "passive"
      match Svc.createLivenessChallenge p customerId (some ctype) with
      | .error msg =>
          (ResponseHandler.error "Failed to perform liveness check" 500 msg,
           [ProviderCall.createLivenessChallenge customerId (some ctype)])
      | .ok challenge =>
          livenessSubmitStep p customerId img (some challenge.challengeId)
            [ProviderCall.createLivenessChallenge customerId (some ctype)]

/-- Embedding of `VerificationController.performFaceDetection`: requires a
truthy `image`; calls `detectFace`, then `checkFaceMask` on the returned
face id, both inside one try block, so a mask-check failure reaches the
catch clause and the whole operation responds with the 500 error
envelope. -/
def performFaceDetection (p : Provider) (customerId : String)
    (image : Option String) : ApiEnvelope × List ProviderCall :=
  match image with
  | none => (ResponseHandler.validationError ["image is required"], [])
  | some img =>
    if img = "" then (ResponseHandler.validationError ["image is required"], [])
    else
      match Svc.detectFace p img with
      | .error msg =>
          (ResponseHandler.error "Failed to detect face" 500 msg,
           [ProviderCall.detectFace img])
      | .ok face =>
        match Svc.checkFaceMask p face.id with
        | .error msg =>
            (ResponseHandler.error "Failed to detect face" 500 msg,
             [ProviderCall.detectFace img, ProviderCall.checkFaceMask face.id])
        | .ok mask =>
            (ResponseHandler.success
              [ ("customerId", Json.str customerId)
              , ("faceResult", face.toJson)
              , ("maskResult", Json.obj [("score", Json.num mask.score)])
              , ("status", Json.str "face_detected") ]
              "Face detection and mask check performed successfully",
             [ProviderCall.detectFace img, ProviderCall.checkFaceMask face.id])

/-- Embedding of `VerificationController.compareFaces`: requires a truthy
`probeFaceId` and at least one of `referenceFace` and
`referenceFaceTemplate` to be truthy; no other precondition is checked (in
particular no tracked prior detection exists anywhere in the controller),
and the adapter similarity call is then made with the given probe id. -/
def compareFaces (p : Provider) (customerId : String)
    (probeFaceId referenceFace referenceFaceTemplate : Option String) :
    ApiEnvelope × List ProviderCall :=
  match probeFaceId with
  | none => (ResponseHandler.validationError ["probeFaceId is required"], [])
  | some probe =>
    if probe = "" then
      (ResponseHandler.validationError ["probeFaceId is required"], [])
    else if (truthy referenceFace || truthy referenceFaceTemplate) = false then
      (ResponseHandler.validationError
        ["Either referenceFace or referenceFaceTemplate is required"], [])
    else
      match Svc.compareFaces p probe referenceFace referenceFaceTemplate with
      | .ok sim =>
          (ResponseHandler.success
            [ ("customerId", Json.str customerId)
            , ("similarityResult", Json.obj [("score", Json.num sim.score)])
            , ("status", Json.str "faces_compared") ]
            "Face comparison performed successfully",
           [ProviderCall.compareFaces probe referenceFace referenceFaceTemplate])
      | .error msg =>
          (ResponseHandler.error "Failed to compare faces" 500 msg,
           [ProviderCall.compareFaces probe referenceFace referenceFaceTemplate])

/-- Embedding of `VerificationController.getCustomerStatus`: the source
returns a fixed payload
`\x7bcustomerId, status: active, onboardingStatus: IN_PROGRESS\x7d` for every
customer id, performs no provider call and reads no workflow state. -/
def getCustomerStatus (customerId : String) :
    ApiEnvelope × List ProviderCall :=
  (ResponseHandler.success
    [ ("customerId", Json.str customerId)
    , ("status", Json.str "active")
    , ("onboardingStatus", Json.str "IN_PROGRESS") ]
    "Customer status retrieved successfully", [])

/-- Embedding of `VerificationController.deleteCustomer`: awaits
`deleteSelfie` and then `deleteLivenessData` sequentially inside one try
block; the first failure reaches the catch clause, so a selfie-deletion
failure prevents the liveness-deletion attempt and any failure yields the
single 500 error envelope. -/
def deleteCustomer (p : Provider) (customerId : String) :
    ApiEnvelope × List ProviderCall :=
  match Svc.deleteSelfie p customerId with
  | .error msg =>
      (ResponseHandler.error "Failed to delete customer data" 500 msg,
       [ProviderCall.deleteSelfie customerId])
  | .ok _ =>
    match Svc.deleteLivenessData p customerId with
    | .error msg =>
        (ResponseHandler.error "Failed to delete customer data" 500 msg,
         [ProviderCall.deleteSelfie customerId,
          ProviderCall.deleteLivenessData customerId])
    | .ok _ =>
        (ResponseHandler.success
          [ ("customerId", Json.str customerId)
          , ("deleted", Json.bool true) ]
          "Customer data deleted successfully",
         [ProviderCall.deleteSelfie customerId,
          ProviderCall.deleteLivenessData customerId])

/-- Embedding of `VerificationController.uploadDocument`: requires a
truthy `frontImage`; calls the two provider steps of
`InnovatricsService.verifyDocument` (create the document record, then
verify it) inside one try block, so either failure yields the single 500
error envelope. -/
def uploadDocument (p : Provider) (customerId : String)
    (frontImage backImage documentType : Option String) :
    ApiEnvelope × List ProviderCall :=
  match frontImage with
  | none => (ResponseHandler.validationError ["frontImage is required"], [])
  | some front =>
    if front = "" then
      (ResponseHandler.validationError ["frontImage is required"], [])
    else
      match Svc.verifyDocumentCreate p front backImage documentType with
      | .error msg =>
          (ResponseHandler.error "Failed to verify document" 500 msg,
           [ProviderCall.verifyDocumentCreate front backImage documentType])
      | .ok docId =>
        match Svc.verifyDocumentVerify p docId with
        | .error msg =>
            (ResponseHandler.error "Failed to verify document" 500 msg,
             [ProviderCall.verifyDocumentCreate front backImage documentType,
              ProviderCall.verifyDocumentVerify docId])
        | .ok docResult =>
            (ResponseHandler.success
              [ ("customerId", Json.str customerId)
              , ("documentResult", docResult.toJson)
              , ("status", Json.str "document_verified") ]
              "Document verified successfully",
             [ProviderCall.verifyDocumentCreate front backImage documentType,
              ProviderCall.verifyDocumentVerify docId])

/-- Embedding of `VerificationController.createLivenessChallenge`: no
body validation; passes the (possibly absent) `challengeType` through to
the adapter and returns the created challenge. -/
def createLivenessChallenge (p : Provider) (customerId : String)
    (challengeType : Option String) : ApiEnvelope × List ProviderCall :=
  match Svc.createLivenessChallenge p customerId challengeType with
  | .ok challenge =>
      (ResponseHandler.success
        [ ("customerId", Json.str customerId)
        , ("challenge", challenge.toJson)
        , ("status", Json.str "challenge_created") ]
        "Liveness challenge created successfully",
       [ProviderCall.createLivenessChallenge customerId challengeType])
  | .error msg =>
      (ResponseHandler.error "Failed to create liveness challenge" 500 msg,
       [ProviderCall.createLivenessChallenge customerId challengeType])

/-- Embedding of `VerificationController.uploadSelfie`: requires a truthy
`image`, uploads it, and returns the provider-assigned selfie id. -/
def uploadSelfie (p : Provider) (customerId : String)
    (image : Option String) : ApiEnvelope × List ProviderCall :=
  match image with
  | none => (ResponseHandler.validationError ["image is required"], [])
  | some img =>
    if img = "" then (ResponseHandler.validationError ["image is required"], [])
    else
      match Svc.uploadSelfie p customerId img with
      | .ok selfieId =>
          (ResponseHandler.success
            [ ("customerId", Json.str customerId)
            , ("selfieResult", Json.obj [("id", Json.str selfieId)])
            , ("status", Json.str "selfie_uploaded") ]
            "Selfie uploaded successfully",
           [ProviderCall.uploadSelfie customerId img])
      | .error msg =>
          (ResponseHandler.error "Failed to upload selfie" 500 msg,
           [ProviderCall.uploadSelfie customerId img])

/-- Embedding of `VerificationController.getSelfie`: fetches the stored
selfie image for the customer; the catch clause uses the stable message
`Failed to retrieve selfie`. -/
def getSelfie (p : Provider) (customerId : String) :
    ApiEnvelope × List ProviderCall :=
  match Svc.getSelfie p customerId with
  | .ok img =>
      (ResponseHandler.success
        [ ("customerId", Json.str customerId)
        , ("selfie", Json.obj [("image", Json.str img)])
        , ("status", Json.str "selfie_retrieved") ]
        "Selfie retrieved successfully",
       [ProviderCall.getSelfie customerId])
  | .error msg =>
      (ResponseHandler.error "Failed to retrieve selfie" 500 msg,
       [ProviderCall.getSelfie customerId])

end VerificationController

/-- Concrete face response used in test scenarios. -/
def okFace : CreateFaceResponse :=
  { id := "face-1"
    detection := { score := 9/10, boundingBox := { x := 0, y := 0, width := 100, height := 100 } }
    selfLink := "/faces/face-1"
    templateLink := "/faces/face-1/face-template" }

/-- Concrete provider behaviour on which every operation succeeds. -/
def okProvider : Provider :=
  { createCustomerResp := .ok { id := "cust-1", selfLink := "/customers/cust-1" }
    detectFaceResp := fun _ => .ok okFace
    checkFaceMaskResp := fun _ => .ok { score := 95/100 }
    compareFacesResp := fun _ _ _ => .ok { score := 85/100 }
    createLivenessChallengeResp := fun _ _ =>
      .ok { challengeId := "chal-77", challengeType := "passive",
            instructions := "no action required" }
    submitLivenessDataResp := fun _ _ _ =>
      .ok { confidence := 95/100, status := "live", isDeepfake := none,
            deepfakeConfidence := none }
    uploadSelfieResp := fun _ _ => .ok "selfie-1"
    getSelfieResp := fun _ => .ok "selfie-image-data"
    deleteSelfieResp := fun _ => .ok ()
    deleteLivenessDataResp := fun _ => .ok ()
    verifyDocumentCreateResp := fun _ _ _ => .ok "doc-1"
    verifyDocumentVerifyResp := fun _ =>
      .ok { documentType := "passport", issuingCountry := "US",
            documentNumber := "P123456789", expirationDate := "2030-12-31",
            personalNumber := none, verificationStatus := "verified",
            confidence := 92/100 } }

/-- Concrete provider failure carrying a structured provider payload
message. -/
def payloadErr : ProvErr :=
  { dataMessage := some "provider internal payload message"
    message := "Request failed with status code 500" }

/-- Provider behaviour on which only the selfie deletion fails. -/
def selfieFailProvider : Provider :=
  { okProvider with deleteSelfieResp := fun _ => .error payloadErr }

/-- Provider behaviour on which only the liveness-data deletion fails. -/
def livenessFailProvider : Provider :=
  { okProvider with deleteLivenessDataResp := fun _ => .error payloadErr }

/-- Provider behaviour on which only the face-mask check fails. -/
def maskFailProvider : Provider :=
  { okProvider with checkFaceMaskResp := fun _ => .error payloadErr }

/-- Provider behaviour on which customer creation fails with a structured
provider payload. -/
def createFailProvider : Provider :=
  { okProvider with createCustomerResp := .error payloadErr }

/-- Provider behaviour on which only the selfie fetch fails. -/
def getSelfieFailProvider : Provider :=
  { okProvider with getSelfieResp := fun _ => .error payloadErr }

/-- C9: the adapter builds every Authorization header from the
`bearerToken` property, which the `config.innovatrics` object never
defines, so every outbound request of every adapter operation carries the
literal header `Bearer undefined` for every configuration; and two
configurations differing only in `apiKey`/`apiSecret` produce identical
requests for every operation, so the configured credential pair is never
used by any adapter operation. -/
theorem C9_bearer_token_never_defined_credentials_unused :
    (∀ c : InnovatricsConfig, c.field "bearerToken" = none ∧ c.field "host" = none) ∧
    (∀ c : InnovatricsConfig, clientDefaultHeaders c =
      [ ("Authorization", "Bearer undefined")
      , ("Content-Type", "application/json")
      , ("Host", "undefined") ]) ∧
    (∀ (c : InnovatricsConfig) (call : ProviderCall),
      (adapterRequest c call).headers =
        [ ("Authorization", "Bearer undefined")
        , ("Content-Type", "application/json")
        , ("Host", "undefined") ]) ∧
    (∀ (c₁ c₂ : InnovatricsConfig) (call : ProviderCall),
      c₁.baseUrl = c₂.baseUrl → adapterRequest c₁ call = adapterRequest c₂ call) := by
  refine ⟨fun c => ⟨rfl, rfl⟩, fun c => rfl, fun c call => ?_, fun c₁ c₂ call h => ?_⟩
  · cases call <;> rfl
  · cases call <;> simp [adapterRequest, clientDefaultHeaders, InnovatricsConfig.field,
      jsInterp, h]

/-- Witness for C9 at concrete configurations: two configurations sharing
a base URL but with different credential pairs yield the same
create-customer request, whose Authorization header is `Bearer
undefined`. -/
theorem C9_bearer_token_never_defined_credentials_unused_witness :
    adapterRequest ⟨"https://dis.example", "key-A", "secret-A"⟩ ProviderCall.createCustomer =
      adapterRequest ⟨"https://dis.example", "key-B", "secret-B"⟩ ProviderCall.createCustomer ∧
    (adapterRequest ⟨"https://dis.example", "key-A", "secret-A"⟩
        ProviderCall.createCustomer).headers =
      [ ("Authorization", "Bearer undefined")
      , ("Content-Type", "application/json")
      , ("Host", "undefined") ] :=
  ⟨C9_bearer_token_never_defined_credentials_unused.2.2.2
      ⟨"https://dis.example", "key-A", "secret-A"⟩
      ⟨"https://dis.example", "key-B", "secret-B"⟩ ProviderCall.createCustomer rfl,
   C9_bearer_token_never_defined_credentials_unused.2.2.1
      ⟨"https://dis.example", "key-A", "secret-A"⟩ ProviderCall.createCustomer⟩

/-- C10: the start operation never transmits the caller userId or the
onboarding status to the provider: the adapter `createCustomer` is the
only provider call made, it takes no data (the argument object built at
the call site is discarded because the source method signature declares no
parameters), its request is `POST /customers` with a null body for every
configuration, and on success the userId is only echoed back in the local
response payload. -/
theorem C10_create_customer_sends_no_user_data (p : Provider) (now : String)
    (userId : Option String) (u : String) (hu : userId = some u) (hne : u ≠ "") :
    (VerificationController.createCustomer p now userId).2 =
      [ProviderCall.createCustomer] ∧
    (∀ c : InnovatricsConfig, adapterRequest c ProviderCall.createCustomer =
      ⟨"POST", c.baseUrl ++ "/customers", Json.null, clientDefaultHeaders c⟩) ∧
    (∀ r, p.createCustomerResp = .ok r →
      (VerificationController.createCustomer p now userId).1.data =
        some [ ("customerId", Json.str r.id)
             , ("status", Json.str "created")
             , ("createdAt", Json.str now)
             , ("userId", Json.str u) ]) := by
  subst hu
  refine ⟨?_, fun c => rfl, fun r hr => ?_⟩
  · unfold VerificationController.createCustomer
    cases h : p.createCustomerResp <;>
      simp [truthy, hne, Svc.createCustomer, h, ResponseHandler.success,
        ResponseHandler.error]
  · unfold VerificationController.createCustomer
    simp [truthy, hne, Svc.createCustomer, hr, ResponseHandler.success, jsInterp]

/-- Witness for C10 at a concrete input: with a succeeding provider and
userId `user-123`, the only provider call is the parameterless
`createCustomer` and the response data echoes the userId locally. -/
theorem C10_create_customer_sends_no_user_data_witness :
    (VerificationController.createCustomer okProvider "t0" (some "user-123")).2 =
      [ProviderCall.createCustomer] ∧
    (VerificationController.createCustomer okProvider "t0" (some "user-123")).1.data =
      some [ ("customerId", Json.str "cust-1")
           , ("status", Json.str "created")
           , ("createdAt", Json.str "t0")
           , ("userId", Json.str "user-123") ] :=
  ⟨(C10_create_customer_sends_no_user_data okProvider "t0" (some "user-123")
      "user-123" rfl (by decide)).1,
   (C10_create_customer_sends_no_user_data okProvider "t0" (some "user-123")
      "user-123" rfl (by decide)).2.2 { id := "cust-1", selfLink := "/customers/cust-1" } rfl⟩

/-- C1 counterexample: the claim says a compareFaces invocation with a
probe face id never produced by a prior detectFace fails with
PreconditionFailed and makes no provider call; but the controller keeps no
detection history at all, and on a fresh run with probe id
`face-never-detected` (no detectFace ever ran) it makes the provider
similarity call and responds with success, not with any failure. -/
theorem C1_counterexample_no_precondition_check :
    (VerificationController.compareFaces okProvider "cust-1"
        (some "face-never-detected") (some "ref-face-url") none).2 =
      [ProviderCall.compareFaces "face-never-detected" (some "ref-face-url") none] ∧
    (VerificationController.compareFaces okProvider "cust-1"
        (some "face-never-detected") (some "ref-face-url") none).1.success = true ∧
    (VerificationController.compareFaces okProvider "cust-1"
        (some "face-never-detected") (some "ref-face-url") none).1.status = 200 :=
  ⟨rfl, rfl, rfl⟩

/-- C1 amended: the compareFaces operation performs no prior-detection
precondition check; for every provider behaviour and every truthy probe
face id with at least one reference supplied, exactly one provider call is
made — the similarity call with that probe id — regardless of whether the
probe id was ever produced by detectFace; the only locally decided
failures are a missing probeFaceId or both references absent. -/
theorem C1_amended_compare_always_calls_provider (p : Provider)
    (customerId probe : String) (referenceFace referenceFaceTemplate : Option String)
    (hne : probe ≠ "")
    (href : truthy referenceFace = true ∨ truthy referenceFaceTemplate = true) :
    (VerificationController.compareFaces p customerId (some probe)
        referenceFace referenceFaceTemplate).2 =
      [ProviderCall.compareFaces probe referenceFace referenceFaceTemplate] := by
  unfold VerificationController.compareFaces
  have hor : (truthy referenceFace || truthy referenceFaceTemplate) = true := by
    rcases href with h | h <;> simp [h]
  cases h : Svc.compareFaces p probe referenceFace referenceFaceTemplate <;>
    simp [hne, hor, h]

/-- Witness for the amended C1 at a concrete input: probe id `face-x` with
a reference image and a succeeding provider yields exactly the provider
similarity call. -/
theorem C1_amended_compare_always_calls_provider_witness :
    (VerificationController.compareFaces okProvider "cust-1" (some "face-x")
        (some "ref-face-url") none).2 =
      [ProviderCall.compareFaces "face-x" (some "ref-face-url") none] :=
  C1_amended_compare_always_calls_provider okProvider "cust-1" "face-x"
    (some "ref-face-url") none (by decide) (Or.inl (by decide))

/-- C7: when both referenceFace and referenceFaceTemplate are absent (or
empty), the compareFaces operation is rejected locally with the 400
validation envelope and no provider call is made, for every provider
behaviour and every probe id. -/
theorem C7_both_references_absent_rejected_locally (p : Provider)
    (customerId : String) (probeFaceId referenceFace referenceFaceTemplate : Option String)
    (href : truthy referenceFace = false) (htmpl : truthy referenceFaceTemplate = false) :
    (VerificationController.compareFaces p customerId probeFaceId
        referenceFace referenceFaceTemplate).2 = [] ∧
    (VerificationController.compareFaces p customerId probeFaceId
        referenceFace referenceFaceTemplate).1.status = 400 ∧
    (VerificationController.compareFaces p customerId probeFaceId
        referenceFace referenceFaceTemplate).1.success = false ∧
    (VerificationController.compareFaces p customerId probeFaceId
        referenceFace referenceFaceTemplate).1.message = some "Validation failed" := by
  unfold VerificationController.compareFaces
  match probeFaceId with
  | none => exact ⟨rfl, rfl, rfl, rfl⟩
  | some probe =>
    by_cases hp : probe = "" <;>
      simp [hp, href, htmpl, ResponseHandler.validationError]

/-- Witness for C7 at a concrete input: a truthy probe id with both
references absent is rejected with the validation envelope and an empty
provider-call trace, even though the provider would have succeeded. -/
theorem C7_both_references_absent_rejected_locally_witness :
    (VerificationController.compareFaces okProvider "cust-1" (some "face-1")
        none none).2 = [] ∧
    (VerificationController.compareFaces okProvider "cust-1" (some "face-1")
        none none).1.status = 400 ∧
    (VerificationController.compareFaces okProvider "cust-1" (some "face-1")
        none none).1.success = false ∧
    (VerificationController.compareFaces okProvider "cust-1" (some "face-1")
        none none).1.message = some "Validation failed" :=
  C7_both_references_absent_rejected_locally okProvider "cust-1" (some "face-1")
    none none rfl rfl

/-- C3: with a falsy challengeId, the liveness stage first creates a
challenge — with challenge type `challengeType || passive`, so `passive`
when none is given — and the subsequent liveness submission uses exactly
the challenge id returned by that same creation, never a stale or
different one: the trace is the creation call followed by the submission
carrying the created id. -/
theorem C3_liveness_uses_freshly_created_challenge (p : Provider)
    (customerId img : String) (challengeId challengeType : Option String)
    (himg : img ≠ "") (hch : truthy challengeId = false)
    (challenge : LivenessChallengeResponse)
    (hcreate : p.createLivenessChallengeResp customerId
        (some (jsOr challengeType "passive")) = .ok challenge) :
    (VerificationController.performLivenessCheck p customerId (some img)
        challengeId challengeType).2 =
      [ ProviderCall.createLivenessChallenge customerId
          (some (jsOr challengeType "passive"))
      , ProviderCall.submitLivenessData customerId img (some challenge.challengeId) ] ∧
    (challengeType = none → jsOr challengeType "passive" = "passive") := by
  refine ⟨?_, fun h => by simp [h, jsOr]⟩
  have hsvc : Svc.createLivenessChallenge p customerId
      (some (jsOr challengeType "passive")) = .ok challenge := by
    simp [Svc.createLivenessChallenge, hcreate]
  unfold VerificationController.performLivenessCheck
  simp only [himg, hch, hsvc, Bool.false_eq_true, if_false, ite_false, reduceIte]
  unfold VerificationController.livenessSubmitStep
  cases h : Svc.submitLivenessData p customerId img (some challenge.challengeId) <;>
    simp [h]

/-- Witness for C3 at a concrete input: no challengeId and no
challengeType, with a provider whose challenge creation returns id
`chal-77`; the trace is the creation with type `passive` followed by the
submission carrying `chal-77`. -/
theorem C3_liveness_uses_freshly_created_challenge_witness :
    (VerificationController.performLivenessCheck okProvider "cust-1"
        (some "selfie-img") none none).2 =
      [ ProviderCall.createLivenessChallenge "cust-1" (some "passive")
      , ProviderCall.submitLivenessData "cust-1" "selfie-img" (some "chal-77") ] ∧
    (none = (none : Option String) → jsOr none "passive" = "passive") :=
  C3_liveness_uses_freshly_created_challenge okProvider "cust-1" "selfie-img"
    none none (by decide) rfl
    { challengeId := "chal-77", challengeType := "passive",
      instructions := "no action required" } rfl

/-- C2 counterexample: the claim says the status operation computes an
overallStatus that is `completed` exactly when all three artifacts are
present and positive; but the controller source returns a fixed payload
for every subject, consults no artifacts, and its response data contains
no overallStatus field at all. -/
theorem C2_counterexample_no_overall_status_computed :
    (VerificationController.getCustomerStatus "cust-1").1.data =
      some [ ("customerId", Json.str "cust-1")
           , ("status", Json.str "active")
           , ("onboardingStatus", Json.str "IN_PROGRESS") ] ∧
    lookupField ((VerificationController.getCustomerStatus "cust-1").1.data.getD [])
      "overallStatus" = none ∧
    (VerificationController.getCustomerStatus "cust-1").2 = [] :=
  ⟨rfl, rfl, rfl⟩

/-- C2 amended: the status operation performs no aggregation at all: for
every subject it returns the constant success envelope with data exactly
`customerId`, `status = active` and `onboardingStatus = IN_PROGRESS`,
makes no provider call, reads no artifact state, and exposes no
overallStatus field. -/
theorem C2_amended_status_is_constant (customerId : String) :
    VerificationController.getCustomerStatus customerId =
      (ResponseHandler.success
        [ ("customerId", Json.str customerId)
        , ("status", Json.str "active")
        , ("onboardingStatus", Json.str "IN_PROGRESS") ]
        "Customer status retrieved successfully", []) ∧
    lookupField
      [ ("customerId", Json.str customerId)
      , ("status", Json.str "active")
      , ("onboardingStatus", Json.str "IN_PROGRESS") ] "overallStatus" = none :=
  ⟨rfl, rfl⟩

/-- C6 counterexample: the claim says status on a subject with no stages
run returns empty artifacts and overallStatus equal to `in_progress`; the
controller indeed never fails and returns no artifact fields, but its
response has no overallStatus field at all — the only progress indication
is the constant `onboardingStatus = IN_PROGRESS`. -/
theorem C6_counterexample_no_overall_status_field :
    (VerificationController.getCustomerStatus "ghost-subject").1.success = true ∧
    (VerificationController.getCustomerStatus "ghost-subject").1.status = 200 ∧
    lookupField ((VerificationController.getCustomerStatus "ghost-subject").1.data.getD [])
      "overallStatus" = none ∧
    lookupField ((VerificationController.getCustomerStatus "ghost-subject").1.data.getD [])
      "onboardingStatus" = some (Json.str "IN_PROGRESS") :=
  ⟨rfl, rfl, rfl, rfl⟩

/-- C6 amended: for every subject id — including unknown ids and freshly
created subjects, since no state is consulted — the status operation
succeeds with HTTP 200, makes no provider call, and its data contains no
document, liveness or face-match artifact field and no overallStatus
field; it reports the constant `onboardingStatus = IN_PROGRESS`. -/
theorem C6_amended_status_never_fails_no_artifacts (customerId : String) :
    (VerificationController.getCustomerStatus customerId).1.success = true ∧
    (VerificationController.getCustomerStatus customerId).1.status = 200 ∧
    (VerificationController.getCustomerStatus customerId).2 = [] ∧
    lookupField ((VerificationController.getCustomerStatus customerId).1.data.getD [])
      "documentResult" = none ∧
    lookupField ((VerificationController.getCustomerStatus customerId).1.data.getD [])
      "livenessResult" = none ∧
    lookupField ((VerificationController.getCustomerStatus customerId).1.data.getD [])
      "faceMatchResult" = none ∧
    lookupField ((VerificationController.getCustomerStatus customerId).1.data.getD [])
      "overallStatus" = none ∧
    lookupField ((VerificationController.getCustomerStatus customerId).1.data.getD [])
      "onboardingStatus" = some (Json.str "IN_PROGRESS") :=
  ⟨rfl, rfl, rfl, rfl, rfl, rfl, rfl, rfl⟩

/-- C4 counterexample: the claim says the two sub-deletions are attempted
independently and failures are reported as partial success; but with a
provider on which selfie deletion fails, the liveness deletion is never
attempted (the trace holds only the selfie call) and the response is the
atomic 500 error envelope, not a partial-success report. -/
theorem C4_counterexample_selfie_failure_blocks_liveness_deletion :
    (VerificationController.deleteCustomer selfieFailProvider "cust-1").2 =
      [ProviderCall.deleteSelfie "cust-1"] ∧
    ProviderCall.deleteLivenessData "cust-1" ∉
      (VerificationController.deleteCustomer selfieFailProvider "cust-1").2 ∧
    (VerificationController.deleteCustomer selfieFailProvider "cust-1").1.success = false ∧
    (VerificationController.deleteCustomer selfieFailProvider "cust-1").1.status = 500 :=
  ⟨rfl, by decide, rfl, rfl⟩

/-- C4 amended: the terminate operation deletes sequentially and fails
atomically: a selfie-deletion failure prevents the liveness-deletion
attempt and yields the single 500 error envelope, and a liveness-deletion
failure after a successful selfie deletion also yields the single 500
error envelope with no partial-success report; the controller keeps no
local workflow state that could be cleared. -/
theorem C4_amended_deletion_sequential_atomic (p : Provider) (customerId : String) :
    (∀ e : ProvErr, p.deleteSelfieResp customerId = .error e →
      (VerificationController.deleteCustomer p customerId).2 =
        [ProviderCall.deleteSelfie customerId] ∧
      (VerificationController.deleteCustomer p customerId).1 =
        ResponseHandler.error "Failed to delete customer data" 500
          (svcWrap "Failed to delete selfie" e)) ∧
    (∀ e : ProvErr, p.deleteSelfieResp customerId = .ok () →
      p.deleteLivenessDataResp customerId = .error e →
      (VerificationController.deleteCustomer p customerId).2 =
        [ProviderCall.deleteSelfie customerId,
         ProviderCall.deleteLivenessData customerId] ∧
      (VerificationController.deleteCustomer p customerId).1 =
        ResponseHandler.error "Failed to delete customer data" 500
          (svcWrap "Failed to delete liveness data" e)) := by
  constructor
  · intro e he
    unfold VerificationController.deleteCustomer
    simp [Svc.deleteSelfie, he, ResponseHandler.error]
  · intro e hok he
    unfold VerificationController.deleteCustomer
    simp [Svc.deleteSelfie, Svc.deleteLivenessData, hok, he, ResponseHandler.error]

/-- Witness for the amended C4 at a concrete input, realising the spec
scenario where selfie deletion succeeds and liveness deletion fails: both
calls are attempted in order, but the response is the atomic 500 error
envelope rather than a partial-success report. -/
theorem C4_amended_deletion_sequential_atomic_witness :
    (VerificationController.deleteCustomer livenessFailProvider "cust-1").2 =
      [ProviderCall.deleteSelfie "cust-1",
       ProviderCall.deleteLivenessData "cust-1"] ∧
    (VerificationController.deleteCustomer livenessFailProvider "cust-1").1 =
      ResponseHandler.error "Failed to delete customer data" 500
        (svcWrap "Failed to delete liveness data" payloadErr) :=
  (C4_amended_deletion_sequential_atomic livenessFailProvider "cust-1").2
    payloadErr rfl rfl

/-- C5 counterexample: the claim says a mask-check failure after a
successful detection leaves the operation successful, surfacing the
detection result with reduced-confidence metadata; but with a provider
whose detection succeeds and whose mask check fails, the operation
responds with the 500 error envelope and returns no detection data. -/
theorem C5_counterexample_mask_failure_fails_operation :
    maskFailProvider.detectFaceResp "selfie-img" = .ok okFace ∧
    (VerificationController.performFaceDetection maskFailProvider "cust-1"
        (some "selfie-img")).1.success = false ∧
    (VerificationController.performFaceDetection maskFailProvider "cust-1"
        (some "selfie-img")).1.status = 500 ∧
    (VerificationController.performFaceDetection maskFailProvider "cust-1"
        (some "selfie-img")).1.data = none :=
  ⟨rfl, rfl, rfl, rfl⟩

/-- C5 amended: both provider calls run inside one try block, so a
mask-check failure is fatal: for every provider on which detection
succeeds and the mask check fails, the whole operation returns the 500
error envelope wrapping the mask failure, discarding the successful
detection result; the mask score appears (as the separate `maskResult`
field, not as reduced confidence) only when the mask check succeeds. -/
theorem C5_amended_mask_failure_is_fatal (p : Provider) (customerId img : String)
    (himg : img ≠ "") (face : CreateFaceResponse) (e : ProvErr)
    (hdet : p.detectFaceResp img = .ok face)
    (hmask : p.checkFaceMaskResp face.id = .error e) :
    VerificationController.performFaceDetection p customerId (some img) =
      (ResponseHandler.error "Failed to detect face" 500
        (svcWrap "Failed to check face mask" e),
       [ProviderCall.detectFace img, ProviderCall.checkFaceMask face.id]) := by
  unfold VerificationController.performFaceDetection
  simp [himg, Svc.detectFace, hdet, Svc.checkFaceMask, hmask, ResponseHandler.error]

/-- Witness for the amended C5 at a concrete input: detection returns
`face-1` but the mask check fails, and the operation responds with the 500
error envelope. -/
theorem C5_amended_mask_failure_is_fatal_witness :
    VerificationController.performFaceDetection maskFailProvider "cust-1"
        (some "selfie-img") =
      (ResponseHandler.error "Failed to detect face" 500
        (svcWrap "Failed to check face mask" payloadErr),
       [ProviderCall.detectFace "selfie-img", ProviderCall.checkFaceMask okFace.id]) :=
  C5_amended_mask_failure_is_fatal maskFailProvider "cust-1" "selfie-img"
    (by decide) okFace payloadErr rfl rfl

/-- C8 counterexample: the claim says the structured message of the
provider error payload is never included verbatim in production; but the
failure path of the controller reads no environment flag at all, and the
error field of the response embeds the provider payload message verbatim
in every configuration, production included. -/
theorem C8_counterexample_provider_payload_leaked :
    payloadErr.dataMessage = some "provider internal payload message" ∧
    (VerificationController.createCustomer createFailProvider "t0"
        (some "user-1")).1.error =
      some ("Failed to create customer: " ++ "provider internal payload message") ∧
    (VerificationController.createCustomer createFailProvider "t0"
        (some "user-1")).1.success = false :=
  ⟨rfl, rfl, rfl⟩

/-- C8 amended: every provider-failure path of every operation returns
the structured envelope with success false, HTTP 500 and a stable
per-operation human-readable message, and its error field embeds the
structured message of the provider error payload verbatim whenever the
provider supplied one; this holds in every configuration because no
failure path reads any environment flag. The conjuncts cover every
provider-failure path of every controller operation: customer creation,
both document steps, all three liveness-check failure points, both
face-detection steps, face comparison, challenge creation, selfie upload
and fetch, and both terminate deletions (the status operation has no
failure path). -/
theorem C8_amended_structured_error_embeds_payload (e : ProvErr) (m : String)
    (hm : e.dataMessage = some m) (hmne : m ≠ "") :
    (∀ (p : Provider) (now u : String), u ≠ "" →
      p.createCustomerResp = .error e →
      (VerificationController.createCustomer p now (some u)).1 =
        ResponseHandler.error "Failed to create customer" 500
          ("Failed to create customer: " ++ m)) ∧
    (∀ (p : Provider) (customerId front : String)
        (backImage documentType : Option String), front ≠ "" →
      p.verifyDocumentCreateResp front backImage documentType = .error e →
      (VerificationController.uploadDocument p customerId (some front)
          backImage documentType).1 =
        ResponseHandler.error "Failed to verify document" 500
          ("Failed to verify document: " ++ m)) ∧
    (∀ (p : Provider) (customerId front docId : String)
        (backImage documentType : Option String), front ≠ "" →
      p.verifyDocumentCreateResp front backImage documentType = .ok docId →
      p.verifyDocumentVerifyResp docId = .error e →
      (VerificationController.uploadDocument p customerId (some front)
          backImage documentType).1 =
        ResponseHandler.error "Failed to verify document" 500
          ("Failed to verify document: " ++ m)) ∧
    (∀ (p : Provider) (customerId img : String)
        (challengeId challengeType : Option String), img ≠ "" →
      truthy challengeId = false →
      p.createLivenessChallengeResp customerId
        (some (jsOr challengeType "passive")) = .error e →
      (VerificationController.performLivenessCheck p customerId (some img)
          challengeId challengeType).1 =
        ResponseHandler.error "Failed to perform liveness check" 500
          ("Failed to create liveness challenge: " ++ m)) ∧
    (∀ (p : Provider) (customerId img ch : String)
        (challengeType : Option String), img ≠ "" → ch ≠ "" →
      p.submitLivenessDataResp customerId img (some ch) = .error e →
      (VerificationController.performLivenessCheck p customerId (some img)
          (some ch) challengeType).1 =
        ResponseHandler.error "Failed to perform liveness check" 500
          ("Failed to submit liveness data: " ++ m)) ∧
    (∀ (p : Provider) (customerId img : String)
        (challengeId challengeType : Option String)
        (challenge : LivenessChallengeResponse), img ≠ "" →
      truthy challengeId = false →
      p.createLivenessChallengeResp customerId
        (some (jsOr challengeType "passive")) = .ok challenge →
      p.submitLivenessDataResp customerId img (some challenge.challengeId) = .error e →
      (VerificationController.performLivenessCheck p customerId (some img)
          challengeId challengeType).1 =
        ResponseHandler.error "Failed to perform liveness check" 500
          ("Failed to submit liveness data: " ++ m)) ∧
    (∀ (p : Provider) (customerId img : String), img ≠ "" →
      p.detectFaceResp img = .error e →
      (VerificationController.performFaceDetection p customerId (some img)).1 =
        ResponseHandler.error "Failed to detect face" 500
          ("Failed to detect face: " ++ m)) ∧
    (∀ (p : Provider) (customerId img : String) (face : CreateFaceResponse),
      img ≠ "" → p.detectFaceResp img = .ok face →
      p.checkFaceMaskResp face.id = .error e →
      (VerificationController.performFaceDetection p customerId (some img)).1 =
        ResponseHandler.error "Failed to detect face" 500
          ("Failed to check face mask: " ++ m)) ∧
    (∀ (p : Provider) (customerId probe : String)
        (referenceFace referenceFaceTemplate : Option String), probe ≠ "" →
      (truthy referenceFace = true ∨ truthy referenceFaceTemplate = true) →
      p.compareFacesResp probe referenceFace referenceFaceTemplate = .error e →
      (VerificationController.compareFaces p customerId (some probe)
          referenceFace referenceFaceTemplate).1 =
        ResponseHandler.error "Failed to compare faces" 500
          ("Failed to compare faces: " ++ m)) ∧
    (∀ (p : Provider) (customerId : String) (challengeType : Option String),
      p.createLivenessChallengeResp customerId challengeType = .error e →
      (VerificationController.createLivenessChallenge p customerId challengeType).1 =
        ResponseHandler.error "Failed to create liveness challenge" 500
          ("Failed to create liveness challenge: " ++ m)) ∧
    (∀ (p : Provider) (customerId img : String), img ≠ "" →
      p.uploadSelfieResp customerId img = .error e →
      (VerificationController.uploadSelfie p customerId (some img)).1 =
        ResponseHandler.error "Failed to upload selfie" 500
          ("Failed to upload selfie: " ++ m)) ∧
    (∀ (p : Provider) (customerId : String),
      p.getSelfieResp customerId = .error e →
      (VerificationController.getSelfie p customerId).1 =
        ResponseHandler.error "Failed to retrieve selfie" 500
          ("Failed to get selfie: " ++ m)) ∧
    (∀ (p : Provider) (customerId : String),
      p.deleteSelfieResp customerId = .error e →
      (VerificationController.deleteCustomer p customerId).1 =
        ResponseHandler.error "Failed to delete customer data" 500
          ("Failed to delete selfie: " ++ m)) ∧
    (∀ (p : Provider) (customerId : String),
      p.deleteSelfieResp customerId = .ok () →
      p.deleteLivenessDataResp customerId = .error e →
      (VerificationController.deleteCustomer p customerId).1 =
        ResponseHandler.error "Failed to delete customer data" 500
          ("Failed to delete liveness data: " ++ m)) := by
  have hwrap : ∀ pre : String, svcWrap pre e = pre ++ ": " ++ m := by
    intro pre
    simp [svcWrap, hm, jsOr, hmne]
  refine ⟨?_, ?_, ?_, ?_, ?_, ?_, ?_, ?_, ?_, ?_, ?_, ?_, ?_, ?_⟩
  · intro p now u hu herr
    unfold VerificationController.createCustomer
    simp [truthy, hu, Svc.createCustomer, herr, hwrap, ResponseHandler.error]
  · intro p customerId front backImage documentType hf herr
    unfold VerificationController.uploadDocument
    simp [hf, Svc.verifyDocumentCreate, herr, hwrap, ResponseHandler.error]
  · intro p customerId front docId backImage documentType hf hok herr
    unfold VerificationController.uploadDocument
    simp [hf, Svc.verifyDocumentCreate, hok, Svc.verifyDocumentVerify, herr,
      hwrap, ResponseHandler.error]
  · intro p customerId img challengeId challengeType himg hch herr
    have hsvc : Svc.createLivenessChallenge p customerId
        (some (jsOr challengeType "passive")) =
          .error (svcWrap "Failed to create liveness challenge" e) := by
      simp [Svc.createLivenessChallenge, herr]
    unfold VerificationController.performLivenessCheck
    simp only [himg, hch, hsvc, Bool.false_eq_true, if_false, ite_false, reduceIte]
    simp [hwrap, ResponseHandler.error]
  · intro p customerId img ch challengeType himg hch herr
    unfold VerificationController.performLivenessCheck
      VerificationController.livenessSubmitStep
    simp [himg, truthy, hch, Svc.submitLivenessData, herr, hwrap,
      ResponseHandler.error]
  · intro p customerId img challengeId challengeType challenge himg hch hcreate herr
    have hsvc : Svc.createLivenessChallenge p customerId
        (some (jsOr challengeType "passive")) = .ok challenge := by
      simp [Svc.createLivenessChallenge, hcreate]
    unfold VerificationController.performLivenessCheck
    simp only [himg, hch, hsvc, Bool.false_eq_true, if_false, ite_false, reduceIte]
    unfold VerificationController.livenessSubmitStep
    simp [Svc.submitLivenessData, herr, hwrap, ResponseHandler.error]
  · intro p customerId img himg herr
    unfold VerificationController.performFaceDetection
    simp [himg, Svc.detectFace, herr, hwrap, ResponseHandler.error]
  · intro p customerId img face himg hdet herr
    unfold VerificationController.performFaceDetection
    simp [himg, Svc.detectFace, hdet, Svc.checkFaceMask, herr, hwrap,
      ResponseHandler.error]
  · intro p customerId probe referenceFace referenceFaceTemplate hp href herr
    have hor : (truthy referenceFace || truthy referenceFaceTemplate) = true := by
      rcases href with h | h <;> simp [h]
    unfold VerificationController.compareFaces
    simp [hp, hor, Svc.compareFaces, herr, hwrap, ResponseHandler.error]
  · intro p customerId challengeType herr
    unfold VerificationController.createLivenessChallenge
    simp [Svc.createLivenessChallenge, herr, hwrap, ResponseHandler.error]
  · intro p customerId img himg herr
    unfold VerificationController.uploadSelfie
    simp [himg, Svc.uploadSelfie, herr, hwrap, ResponseHandler.error]
  · intro p customerId herr
    unfold VerificationController.getSelfie
    simp [Svc.getSelfie, herr, hwrap, ResponseHandler.error]
  · intro p customerId herr
    unfold VerificationController.deleteCustomer
    simp [Svc.deleteSelfie, herr, hwrap, ResponseHandler.error]
  · intro p customerId hok herr
    unfold VerificationController.deleteCustomer
    simp [Svc.deleteSelfie, hok, Svc.deleteLivenessData, herr, hwrap,
      ResponseHandler.error]

/-- Witness for the amended C8 at concrete inputs, exercising two distinct
operations: the provider rejects customer creation and (separately) the
selfie fetch with payload message `provider internal payload message`, and
each response error field carries it verbatim inside the structured
envelope with the stable per-operation message. -/
theorem C8_amended_structured_error_embeds_payload_witness :
    (VerificationController.createCustomer createFailProvider "t0"
        (some "user-1")).1 =
      ResponseHandler.error "Failed to create customer" 500
        ("Failed to create customer: " ++ "provider internal payload message") ∧
    (VerificationController.getSelfie getSelfieFailProvider "cust-1").1 =
      ResponseHandler.error "Failed to retrieve selfie" 500
        ("Failed to get selfie: " ++ "provider internal payload message") :=
  ⟨(C8_amended_structured_error_embeds_payload payloadErr
      "provider internal payload message" rfl (by decide)).1
      createFailProvider "t0" "user-1" (by decide) rfl,
   (C8_amended_structured_error_embeds_payload payloadErr
      "provider internal payload message" rfl (by decide)).2.2.2.2.2.2.2.2.2.2.2.1
      getSelfieFailProvider "cust-1" rfl⟩

end IdVerif
